import Mathlib

/-!
Verification of the ST7789-class LCD driver in `lcd_helper.py`
(class `LCDDisplay`), by a shallow embedding of its wire behaviour.

The driver's externally visible behaviour is a sequence of low-level
hardware events: setting the DC (data/command) line, setting the RESET
line, writing byte groups on the SPI bus, and sleeping.  We model an
operation of the driver as the `List Ev` of events it emits, translated
line by line from the Python source.  Machine integers are modelled as
`Nat`; the Python source only ever produces byte values via masking, so
no wrap-around arithmetic is needed beyond the explicit masks the source
itself applies.
-/

/-- A low-level hardware event emitted by the driver.
`setDC false` = DC line LOW (command), `setDC true` = DC line HIGH (data);
`spiWrite bs` = one `spi.writebytes(bs)` call; `setRST` drives the RESET
line; `sleep ms` is a `time.sleep` delay, in milliseconds. -/
inductive Ev where
  | setDC (level : Bool)
  | spiWrite (bytes : List Nat)
  | setRST (level : Bool)
  | sleep (ms : Nat)
deriving DecidableEq, Repr

/-- Panel width, from `self.width = 240`. -/
def width : Nat := 240

/-- Panel height, from `self.height = 240`. -/
def height : Nat := 240

/-- A canvas is an RGB888 raster: pixel at column `x`, row `y` is the
triple `(r, g, b)` (mirrors PIL `pix[x, y]`). -/
def Canvas : Type := Nat → Nat → Nat × Nat × Nat

/-- The all-black canvas (`Image.new('RGB', (w, h), (0, 0, 0))` before
any drawing). -/
def blackCanvas : Canvas := fun _ _ => (0, 0, 0)

/-- `LCDDisplay.command(cmd)`: sets DC LOW, then writes the single
command byte (source lines 107-109). -/
def command (cmd : Nat) : List Ev :=
  [Ev.setDC false, Ev.spiWrite [cmd]]

/-- `LCDDisplay.data(val)`: sets DC HIGH, then writes the single data
byte (source lines 111-113). -/
def data (val : Nat) : List Ev :=
  [Ev.setDC true, Ev.spiWrite [val]]

/-- `LCDDisplay.init_display()`: hard reset (RST high/low/high, 10 ms
after each transition), sleep-out `0x11`, 120 ms settle, MADCTL `0x36`
with data `0x00`, pixel format `0x3A` with data `0x05`, display on
`0x29` (source lines 115-130). -/
def init_display : List Ev :=
  [Ev.setRST true, Ev.sleep 10, Ev.setRST false, Ev.sleep 10,
   Ev.setRST true, Ev.sleep 10] ++
  command 0x11 ++ [Ev.sleep 120] ++
  command 0x36 ++ data 0x00 ++
  command 0x3A ++ data 0x05 ++
  command 0x29

/-- The wire events of `LCDDisplay.__init__` (source lines 58-72): after
GPIO/SPI setup it issues MADCTL `0x36` with data `0x00`, pixel format
`0x3A` with data `0x05`, display inversion `0x21`, sleep-out `0x11`, a
0.1 s delay, display on `0x29`, and then calls `init_display()`. -/
def initTrace : List Ev :=
  command 0x36 ++ data 0x00 ++
  command 0x3A ++ data 0x05 ++
  command 0x21 ++
  command 0x11 ++ [Ev.sleep 100] ++
  command 0x29 ++
  init_display

/-- RGB565 packing from `show()` (source line 155):
`color = ((r & 0xF8) << 8) | ((g & 0xFC) << 3) | (b >> 3)`. -/
def encodePixel (r g b : Nat) : Nat :=
  ((r &&& 0xF8) <<< 8) ||| ((g &&& 0xFC) <<< 3) ||| (b >>> 3)

/-- The inverse of the packing formula (spec §8: "decoding ... with the
inverse of the packing formula"): undo each channel's shift, keeping the
surviving high bits of each 8-bit channel. -/
def decodePixel (v : Nat) : Nat × Nat × Nat :=
  ((v >>> 8) &&& 0xF8, (v >>> 3) &&& 0xFC, (v <<< 3) &&& 0xF8)

/-- The two bytes `show()` appends per pixel (source lines 156-157):
high byte `(color >> 8) & 0xFF` first, then low byte `color & 0xFF`. -/
def pixelBytes (p : Nat × Nat × Nat) : List Nat :=
  [(encodePixel p.1 p.2.1 p.2.2 >>> 8) &&& 0xFF,
   encodePixel p.1 p.2.1 p.2.2 &&& 0xFF]

/-- PIL `transpose(Image.ROTATE_270)` (90° clockwise) on a square
`height × height` raster: the rotated image's pixel `(x, y)` is the
source pixel `(y, height - 1 - x)` (source line 135). -/
def rotate270 (img : Canvas) : Canvas :=
  fun x y => img y (height - 1 - x)

/-- Concatenation of a list of byte groups. -/
def joinAll : List (List α) → List α
  | [] => []
  | a :: l => a ++ joinAll l

/-- The pixel byte buffer built by `show()` (source lines 150-157):
after rotation, for each row `y` and column `x` in row-major order,
append the two RGB565 bytes of pixel `(x, y)`. -/
def showBuffer (img : Canvas) : List Nat :=
  joinAll ((List.range height).map (fun y =>
    joinAll ((List.range width).map (fun x =>
      pixelBytes (rotate270 img x y)))))

/-- Split a list into consecutive chunks of `n` elements (the last chunk
may be shorter), mirroring
`for i in range(0, len(buffer), n): buffer[i:i+n]`. -/
def chunksOf (n : Nat) (l : List α) : List (List α) :=
  if _h : 0 < n ∧ 0 < l.length then
    l.take n :: chunksOf n (l.drop n)
  else []
termination_by l.length
decreasing_by
  simp only [List.length_drop]
  omega

/-- The chunked data-write path of `show()` (source lines 159-161, the
spec's `writeDataBytes`): set DC HIGH once, then write the payload in
4096-byte chunks with no intervening command. -/
def writeDataBytes (bs : List Nat) : List Ev :=
  Ev.setDC true :: (chunksOf 4096 bs).map Ev.spiWrite

/-- `LCDDisplay.show()` (source lines 132-161): column address set
`0x2A` with data `00 00 00 EF`, row address set `0x2B` with data
`00 00 00 EF`, memory write `0x2C`, then the rotated and encoded pixel
buffer streamed as chunked data. -/
def showFrame (img : Canvas) : List Ev :=
  command 0x2A ++ data 0x00 ++ data 0x00 ++ data 0x00 ++ data 0xEF ++
  command 0x2B ++ data 0x00 ++ data 0x00 ++ data 0x00 ++ data 0xEF ++
  command 0x2C ++
  writeDataBytes (showBuffer img)

/-- Replay a trace, pairing every SPI write with the DC level in force
when it happens (`dc` is the level the line held before the trace). -/
def writes : List Ev → Bool → List (Bool × List Nat)
  | [], _ => []
  | Ev.setDC l :: rest, _ => writes rest l
  | Ev.spiWrite bs :: rest, dc => (dc, bs) :: writes rest dc
  | Ev.setRST _ :: rest, dc => writes rest dc
  | Ev.sleep _ :: rest, dc => writes rest dc

/-- All bytes a trace puts on the bus with DC LOW: the command opcodes
the panel sees. -/
def commandBytes (t : List Ev) (dc0 : Bool) : List Nat :=
  joinAll ((writes t dc0).filterMap (fun w => if w.1 then none else some w.2))

/-- Group a DC-classified write list into command phases: each DC-LOW
write opens a phase, and the concatenation of the DC-HIGH writes up to
the next DC-LOW write is that phase's data. `cur` is the phase being
accumulated. -/
def phasesGo : List (Bool × List Nat) → Option (List Nat × List Nat) →
    List (List Nat × List Nat)
  | [], none => []
  | [], some cur => [cur]
  | (false, bs) :: rest, none => phasesGo rest (some (bs, []))
  | (false, bs) :: rest, some cur => cur :: phasesGo rest (some (bs, []))
  | (true, _) :: rest, none => phasesGo rest none
  | (true, bs) :: rest, some cur => phasesGo rest (some (cur.1, cur.2 ++ bs))

/-- The command phases of a DC-classified write list. -/
def phases (l : List (Bool × List Nat)) : List (List Nat × List Nat) :=
  phasesGo l none

/-- Error taxonomy of spec §7 (only the window-validation error is
needed here). -/
inductive LCDError where
  | ConfigurationError
deriving DecidableEq, Repr

/-- Modelled from the spec: `setAddressWindow(x0, y0, x1, y1)` (§4.2) is
described in the spec but absent from `src/lcd_helper.py` (`show()`
hard-codes the full-frame window).  Per the spec it validates
`0 ≤ x0 ≤ x1 < width` and `0 ≤ y0 ≤ y1 < height`, raising
`ConfigurationError` with zero bus writes on violation, and otherwise
issues column/row address-set commands, each followed by four data bytes
holding the start and end coordinates as big-endian 16-bit values.  The
result pairs the raised error (if any) with the emitted events. -/
def setAddressWindow (x0 y0 x1 y1 : Nat) : Option LCDError × List Ev :=
  if x0 ≤ x1 ∧ x1 < width ∧ y0 ≤ y1 ∧ y1 < height then
    (none,
      command 0x2A ++
      data ((x0 >>> 8) &&& 0xFF) ++ data (x0 &&& 0xFF) ++
      data ((x1 >>> 8) &&& 0xFF) ++ data (x1 &&& 0xFF) ++
      command 0x2B ++
      data ((y0 >>> 8) &&& 0xFF) ++ data (y0 &&& 0xFF) ++
      data ((y1 >>> 8) &&& 0xFF) ++ data (y1 &&& 0xFF))
  else (some LCDError.ConfigurationError, [])

/-- Button pin KEY1 (BCM 21), from `self.KEY1_PIN = 21`. -/
def KEY1_PIN : Nat := 21

/-- Button pin KEY2 (BCM 20), from `self.KEY2_PIN = 20`. -/
def KEY2_PIN : Nat := 20

/-- Button pin KEY3 (BCM 16), from `self.KEY3_PIN = 16`. -/
def KEY3_PIN : Nat := 16

/-- Why `GPIO.add_event_detect` can raise `RuntimeError`: either an edge
detection already exists on the pin, or the OS-level registration fails
for an external reason. -/
inductive AddError where
  | alreadyRegistered
  | osFailure
deriving DecidableEq, Repr

/-- `GPIO.remove_event_detect(pin)`: clears any edge-detection
registration on `pin`.  The surrounding `try/except: pass` in
`set_callbacks` swallows any error, so the model is total. -/
def remove_event_detect (st : Nat → Option κ) (pin : Nat) : Nat → Option κ :=
  fun p => if p = pin then none else st p

/-- `GPIO.add_event_detect(pin, FALLING, callback, bouncetime)`: fails
with "already registered" if a registration exists on `pin`, fails with
an OS error where the environment dictates (`osFail`), and otherwise
records the callback. -/
def add_event_detect (osFail : Nat → Bool) (st : Nat → Option κ)
    (pin : Nat) (cb : κ) : Except AddError (Nat → Option κ) :=
  if (st pin).isSome then Except.error AddError.alreadyRegistered
  else if osFail pin then Except.error AddError.osFailure
  else Except.ok (fun p => if p = pin then some cb else st p)

/-- One iteration of the `for pin, func in pins.items()` loop of
`set_callbacks` (source lines 94-105): skip when `func` is `None`;
otherwise clear any existing detection (errors swallowed), then add the
new one, catching `RuntimeError` and recording a printed warning.  The
accumulator carries the GPIO registration state and the warnings printed
so far. -/
def bindPin (osFail : Nat → Bool)
    (acc : (Nat → Option κ) × List (Nat × AddError))
    (pin : Nat) (func : Option κ) :
    (Nat → Option κ) × List (Nat × AddError) :=
  match func with
  | none => acc
  | some f =>
    let st1 := remove_event_detect acc.1 pin
    match add_event_detect osFail st1 pin f with
    | Except.ok st2 => (st2, acc.2)
    | Except.error e => (st1, acc.2 ++ [(pin, e)])

/-- `LCDDisplay.set_callbacks(key1_func, key2_func, key3_func)` (source
lines 86-105): iterates the insertion-ordered dict
`{KEY1_PIN: key1_func, KEY2_PIN: key2_func, KEY3_PIN: key3_func}`,
rebinding each pin whose callback is not `None`.  Returns the final GPIO
registration state and the warnings printed. -/
def set_callbacks (osFail : Nat → Bool) (st : Nat → Option κ)
    (key1_func key2_func key3_func : Option κ) :
    (Nat → Option κ) × List (Nat × AddError) :=
  bindPin osFail
    (bindPin osFail
      (bindPin osFail (st, []) KEY1_PIN key1_func)
      KEY2_PIN key2_func)
    KEY3_PIN key3_func

/-! ## Bitwise arithmetic helpers -/

/-- Masking with `0xFF` is reduction mod 256. -/
theorem and255_eq (x : Nat) : x &&& 255 = x % 256 := by
  have h := Nat.and_pow_two_sub_one_eq_mod x 8
  norm_num at h
  exact h

set_option maxRecDepth 4096 in
/-- On bytes, masking with `0xF8` clears the low three bits. -/
theorem and248_fin : ∀ v : Fin 256, (v : Nat) &&& 248 = 8 * ((v : Nat) / 8) := by
  decide

set_option maxRecDepth 4096 in
/-- On bytes, masking with `0xFC` clears the low two bits. -/
theorem and252_fin : ∀ v : Fin 256, (v : Nat) &&& 252 = 4 * ((v : Nat) / 4) := by
  decide

/-- Masking any natural with `0xF8` in arithmetic form. -/
theorem and248_eq (x : Nat) : x &&& 248 = 8 * (x % 256 / 8) := by
  have h255 : (255 : Nat) &&& 248 = 248 := by decide
  have h1 : x &&& 248 = (x &&& 255) &&& 248 := by rw [Nat.and_assoc, h255]
  rw [h1, and255_eq]
  exact and248_fin ⟨x % 256, by omega⟩

/-- Masking any natural with `0xFC` in arithmetic form. -/
theorem and252_eq (x : Nat) : x &&& 252 = 4 * (x % 256 / 4) := by
  have h255 : (255 : Nat) &&& 252 = 252 := by decide
  have h1 : x &&& 252 = (x &&& 255) &&& 252 := by rw [Nat.and_assoc, h255]
  rw [h1, and255_eq]
  exact and252_fin ⟨x % 256, by omega⟩

/-- The packed RGB565 value in pure arithmetic form, for byte inputs. -/
theorem encodePixel_eq (r g b : Nat) (hr : r < 256) (hg : g < 256) (hb : b < 256) :
    encodePixel r g b = 2048 * (r / 8) + 32 * (g / 4) + b / 8 := by
  unfold encodePixel
  rw [and248_eq r, and252_eq g, Nat.mod_eq_of_lt hr, Nat.mod_eq_of_lt hg]
  rw [Nat.shiftLeft_eq, Nat.shiftLeft_eq, Nat.shiftRight_eq_div_pow]
  have hA : 8 * (r / 8) * 2 ^ 8 = 2 ^ 11 * (r / 8) := by ring
  have hB : 4 * (g / 4) * 2 ^ 3 = 2 ^ 5 * (g / 4) := by ring
  rw [hA, hB]
  rw [← Nat.mul_add_lt_is_or (b := 2 ^ 5 * (g / 4)) (by norm_num; omega) (r / 8)]
  have hS : 2 ^ 11 * (r / 8) + 2 ^ 5 * (g / 4) = 2 ^ 5 * (2 ^ 6 * (r / 8) + g / 4) := by
    ring
  rw [hS]
  rw [← Nat.mul_add_lt_is_or (b := b / 2 ^ 3) (by norm_num; omega) (2 ^ 6 * (r / 8) + g / 4)]
  norm_num
  ring_nf

/-- C1: for every RGB888 triple, the encoder packs
`((r & 0xF8) << 8) | ((g & 0xFC) << 3) | (b >> 3)`, emits it high byte
then low byte, and the inverse of the packing formula recovers exactly
`(r & 0xF8, g & 0xFC, b & 0xF8)`; `(255,255,255)` encodes to `0xFFFF`
and decodes to `(248,252,248)`. -/
theorem C1_rgb565_roundtrip (r g b : Nat)
    (hr : r < 256) (hg : g < 256) (hb : b < 256) :
    decodePixel (encodePixel r g b) = (r &&& 0xF8, g &&& 0xFC, b &&& 0xF8) ∧
    pixelBytes (r, g, b) = [encodePixel r g b / 256, encodePixel r g b % 256] ∧
    encodePixel 255 255 255 = 0xFFFF ∧
    decodePixel 0xFFFF = (248, 252, 248) := by
  have e_eq := encodePixel_eq r g b hr hg hb
  have e_lt : encodePixel r g b < 65536 := by rw [e_eq]; omega
  refine ⟨?_, ?_, by decide, by decide⟩
  · unfold decodePixel
    rw [Nat.shiftRight_eq_div_pow, Nat.shiftRight_eq_div_pow, Nat.shiftLeft_eq]
    simp only [and248_eq, and252_eq, Prod.mk.injEq]
    rw [e_eq]
    norm_num
    refine ⟨?_, ?_, ?_⟩ <;> omega
  · unfold pixelBytes
    simp only
    rw [Nat.shiftRight_eq_div_pow, and255_eq, and255_eq]
    norm_num
    omega

/-- C1 witness: the round-trip theorem applied at the concrete triple
`(200, 100, 50)`. -/
theorem C1_rgb565_roundtrip_witness :
    (200 : Nat) < 256 ∧ (100 : Nat) < 256 ∧ (50 : Nat) < 256 ∧
    (decodePixel (encodePixel 200 100 50) =
        (200 &&& 0xF8, 100 &&& 0xFC, 50 &&& 0xF8) ∧
      pixelBytes (200, 100, 50) =
        [encodePixel 200 100 50 / 256, encodePixel 200 100 50 % 256] ∧
      encodePixel 255 255 255 = 0xFFFF ∧
      decodePixel 0xFFFF = (248, 252, 248)) :=
  ⟨by decide, by decide, by decide,
   C1_rgb565_roundtrip 200 100 50 (by decide) (by decide) (by decide)⟩

/-! ## Chunking and trace lemmas -/

/-- Unconditional unfolding of `chunksOf`. -/
theorem chunksOf_eq (n : Nat) (l : List α) :
    chunksOf n l =
      if 0 < n ∧ 0 < l.length then l.take n :: chunksOf n (l.drop n)
      else [] := by
  rw [chunksOf]
  by_cases h : 0 < n ∧ 0 < l.length
  · rw [dif_pos h, if_pos h]
  · rw [dif_neg h, if_neg h]

/-- Concatenating the chunks restores the original list (any list no
longer than the fuel `k`). -/
theorem chunksOf_join_aux (n : Nat) (hn : 0 < n) :
    ∀ (k : Nat) (l : List α), l.length ≤ k → joinAll (chunksOf n l) = l := by
  intro k
  induction k with
  | zero =>
    intro l hl
    have h0 : l = [] := List.eq_nil_of_length_eq_zero (Nat.le_zero.mp hl)
    subst h0
    rw [chunksOf_eq]
    simp [joinAll]
  | succ k ih =>
    intro l hl
    rw [chunksOf_eq]
    by_cases h : 0 < l.length
    · rw [if_pos ⟨hn, h⟩]
      show l.take n ++ joinAll (chunksOf n (l.drop n)) = l
      rw [ih (l.drop n) (by simp only [List.length_drop]; omega)]
      exact List.take_append_drop n l
    · rw [if_neg (by tauto)]
      have h0 : l = [] := by cases l <;> simp_all
      simp [h0, joinAll]

/-- Concatenating the chunks restores the original list. -/
theorem chunksOf_join (n : Nat) (hn : 0 < n) (l : List α) :
    joinAll (chunksOf n l) = l :=
  chunksOf_join_aux n hn l.length l le_rfl

/-- Every chunk has at most `n` elements. -/
theorem chunksOf_length_le_aux (n : Nat) :
    ∀ (k : Nat) (l : List α), l.length ≤ k →
      ∀ c ∈ chunksOf n l, c.length ≤ n := by
  intro k
  induction k with
  | zero =>
    intro l hl c hc
    have h0 : l = [] := List.eq_nil_of_length_eq_zero (Nat.le_zero.mp hl)
    subst h0
    rw [chunksOf_eq] at hc
    simp at hc
  | succ k ih =>
    intro l hl c hc
    rw [chunksOf_eq] at hc
    by_cases h : 0 < n ∧ 0 < l.length
    · rw [if_pos h] at hc
      rw [List.mem_cons] at hc
      rcases hc with hc | hc
      · subst hc
        simp [List.length_take]
      · exact ih (l.drop n) (by simp only [List.length_drop]; omega) c hc
    · rw [if_neg h] at hc
      simp at hc

/-- Every chunk has at most `n` elements. -/
theorem chunksOf_length_le (n : Nat) (l : List α) :
    ∀ c ∈ chunksOf n l, c.length ≤ n :=
  chunksOf_length_le_aux n l.length l le_rfl

/-- A run of pure SPI writes is classified entirely at the current DC
level. -/
theorem writes_map_spiWrite (cs : List (List Nat)) (dc : Bool) :
    writes (cs.map Ev.spiWrite) dc = cs.map (fun c => (dc, c)) := by
  induction cs with
  | nil => rfl
  | cons a cs ih => simp [writes, ih]

set_option maxRecDepth 4096 in
/-- The DC-classified writes of `show()`: three DC-LOW command bytes,
eight DC-HIGH window data bytes, then the pixel chunks all DC-HIGH.
The result does not depend on the initial DC level: the driver sets DC
before the first write. -/
theorem writes_showFrame (img : Canvas) (dc0 : Bool) :
    writes (showFrame img) dc0 =
      [(false, [0x2A]), (true, [0x00]), (true, [0x00]),
       (true, [0x00]), (true, [0xEF]),
       (false, [0x2B]), (true, [0x00]), (true, [0x00]),
       (true, [0x00]), (true, [0xEF]),
       (false, [0x2C])] ++
      (chunksOf 4096 (showBuffer img)).map (fun c => (true, c)) := by
  simp only [showFrame, command, data, writeDataBytes, List.cons_append,
    List.nil_append, List.append_assoc]
  simp [writes, writes_map_spiWrite]

/-- The DC-classified writes of `init_display()`. -/
theorem writes_init_display (dc0 : Bool) :
    writes init_display dc0 =
      [(false, [0x11]), (false, [0x36]), (true, [0x00]),
       (false, [0x3A]), (true, [0x05]), (false, [0x29])] := by
  cases dc0 <;> rfl

/-- The DC-classified writes of the constructor (including the
`init_display()` call it ends with). -/
theorem writes_initTrace (dc0 : Bool) :
    writes initTrace dc0 =
      [(false, [0x36]), (true, [0x00]), (false, [0x3A]), (true, [0x05]),
       (false, [0x21]), (false, [0x11]), (false, [0x29]),
       (false, [0x11]), (false, [0x36]), (true, [0x00]),
       (false, [0x3A]), (true, [0x05]), (false, [0x29])] := by
  cases dc0 <;> rfl

/-- C4: a payload larger than the 4096-byte chunk size is split into
contiguous order-preserving chunks of at most 4096 bytes whose
concatenation is exactly the payload, and the data-write path issues
only DC-HIGH writes — no command byte between chunks of one logical
write. -/
theorem C4_chunked_data_write (payload : List Nat)
    (_hlen : 4096 < payload.length) :
    (∀ c ∈ chunksOf 4096 payload, c.length ≤ 4096) ∧
    joinAll (chunksOf 4096 payload) = payload ∧
    (∀ dc0 : Bool, writes (writeDataBytes payload) dc0 =
      (chunksOf 4096 payload).map (fun c => (true, c))) := by
  refine ⟨chunksOf_length_le 4096 payload,
    chunksOf_join 4096 (by norm_num) payload, ?_⟩
  intro dc0
  show writes ((chunksOf 4096 payload).map Ev.spiWrite) true = _
  exact writes_map_spiWrite _ _

/-- C4 witness: the chunking theorem applied to a 4097-byte payload. -/
theorem C4_chunked_data_write_witness :
    4096 < (List.replicate 4097 (0 : Nat)).length ∧
    ((∀ c ∈ chunksOf 4096 (List.replicate 4097 (0 : Nat)), c.length ≤ 4096) ∧
      joinAll (chunksOf 4096 (List.replicate 4097 (0 : Nat))) =
        List.replicate 4097 (0 : Nat) ∧
      (∀ dc0 : Bool,
        writes (writeDataBytes (List.replicate 4097 (0 : Nat))) dc0 =
          (chunksOf 4096 (List.replicate 4097 (0 : Nat))).map
            (fun c => (true, c)))) :=
  ⟨by rw [List.length_replicate]; norm_num,
   C4_chunked_data_write (List.replicate 4097 0)
     (by rw [List.length_replicate]; norm_num)⟩

/-- C5: `init_display()` pulses RESET high → low → high with a 10 ms
settle after each transition, then issues sleep-out `0x11`, waits
120 ms, issues memory-access-control `0x36` with orientation byte
`0x00`, pixel-format `0x3A` with the 16-bit mode byte `0x05`, and
finally display-on `0x29`, in exactly that order. -/
theorem C5_init_sequence :
    init_display =
      [Ev.setRST true, Ev.sleep 10, Ev.setRST false, Ev.sleep 10,
       Ev.setRST true, Ev.sleep 10,
       Ev.setDC false, Ev.spiWrite [0x11], Ev.sleep 120,
       Ev.setDC false, Ev.spiWrite [0x36], Ev.setDC true, Ev.spiWrite [0x00],
       Ev.setDC false, Ev.spiWrite [0x3A], Ev.setDC true, Ev.spiWrite [0x05],
       Ev.setDC false, Ev.spiWrite [0x29]] := by
  rfl

/-- C7: calling `setAddressWindow` with arguments violating
`0 ≤ x0 ≤ x1 < width` or `0 ≤ y0 ≤ y1 < height` yields a
`ConfigurationError` and an empty event list — zero bus writes. -/
theorem C7_window_validation (x0 y0 x1 y1 : Nat)
    (h : ¬ (x0 ≤ x1 ∧ x1 < width ∧ y0 ≤ y1 ∧ y1 < height)) :
    setAddressWindow x0 y0 x1 y1 = (some LCDError.ConfigurationError, []) := by
  unfold setAddressWindow
  rw [if_neg h]

/-- C7 witness: the validation theorem applied at `x1 < x0`
(`x0 = 5, x1 = 3`). -/
theorem C7_window_validation_witness :
    ¬ ((5 : Nat) ≤ 3 ∧ (3 : Nat) < width ∧ (0 : Nat) ≤ 239 ∧
        (239 : Nat) < height) ∧
    setAddressWindow 5 0 3 239 = (some LCDError.ConfigurationError, []) :=
  ⟨by decide, C7_window_validation 5 0 3 239 (by decide)⟩

/-- Appending data writes to an open phase extends that phase's data
with their concatenation, and closes nothing. -/
theorem phasesGo_data (cs : List (List Nat)) (c ds : List Nat) :
    phasesGo (cs.map (fun b => (true, b))) (some (c, ds)) =
      [(c, ds ++ joinAll cs)] := by
  induction cs generalizing ds with
  | nil => simp [phasesGo, joinAll]
  | cons a cs ih => simp [phasesGo, ih, joinAll]

/-- Stepping lemma: a DC-LOW write with no phase open opens one. -/
theorem phasesGo_false_start (bs : List Nat) (rest : List (Bool × List Nat)) :
    phasesGo ((false, bs) :: rest) none = phasesGo rest (some (bs, [])) := rfl

/-- Stepping lemma: a DC-LOW write closes the open phase and opens a new
one. -/
theorem phasesGo_false_next (bs c ds : List Nat)
    (rest : List (Bool × List Nat)) :
    phasesGo ((false, bs) :: rest) (some (c, ds)) =
      (c, ds) :: phasesGo rest (some (bs, [])) := rfl

/-- Stepping lemma: a DC-HIGH write extends the open phase's data. -/
theorem phasesGo_true_step (bs c ds : List Nat)
    (rest : List (Bool × List Nat)) :
    phasesGo ((true, bs) :: rest) (some (c, ds)) =
      phasesGo rest (some (c, ds ++ bs)) := rfl

/-- C3: every full-frame `show()` issues column-address-set `0x2A`
followed by exactly the four data bytes `00 00 00 EF`, then
row-address-set `0x2B` followed by exactly `00 00 00 EF`, then
memory-write `0x2C` whose data phase is the whole pixel buffer. -/
theorem C3_full_frame_window (img : Canvas) (dc0 : Bool) :
    phases (writes (showFrame img) dc0) =
      [([0x2A], [0x00, 0x00, 0x00, 0xEF]),
       ([0x2B], [0x00, 0x00, 0x00, 0xEF]),
       ([0x2C], showBuffer img)] := by
  rw [writes_showFrame]
  show phasesGo _ none = _
  rw [List.cons_append, phasesGo_false_start]
  rw [List.cons_append, phasesGo_true_step]
  rw [List.cons_append, phasesGo_true_step]
  rw [List.cons_append, phasesGo_true_step]
  rw [List.cons_append, phasesGo_true_step]
  rw [List.cons_append, phasesGo_false_next]
  rw [List.cons_append, phasesGo_true_step]
  rw [List.cons_append, phasesGo_true_step]
  rw [List.cons_append, phasesGo_true_step]
  rw [List.cons_append, phasesGo_true_step]
  rw [List.cons_append, phasesGo_false_next]
  rw [List.nil_append (List.map (fun c => (true, c))
    (chunksOf 4096 (showBuffer img)))]
  rw [phasesGo_data]
  rw [chunksOf_join 4096 (by norm_num), List.nil_append (showBuffer img)]
  all_goals rfl

/-- C9: every SPI write the driver ever performs — in construction,
`init_display()`, and `show()` — happens with the DC line explicitly set
beforehand (the classified write lists do not depend on the initial DC
level), LOW for exactly the command opcode bytes and HIGH for every data
byte and every pixel chunk. -/
theorem C9_dc_classification (img : Canvas) (dc0 dc1 dc2 : Bool) :
    writes initTrace dc0 =
      [(false, [0x36]), (true, [0x00]), (false, [0x3A]), (true, [0x05]),
       (false, [0x21]), (false, [0x11]), (false, [0x29]),
       (false, [0x11]), (false, [0x36]), (true, [0x00]),
       (false, [0x3A]), (true, [0x05]), (false, [0x29])] ∧
    writes init_display dc1 =
      [(false, [0x11]), (false, [0x36]), (true, [0x00]),
       (false, [0x3A]), (true, [0x05]), (false, [0x29])] ∧
    writes (showFrame img) dc2 =
      [(false, [0x2A]), (true, [0x00]), (true, [0x00]),
       (true, [0x00]), (true, [0xEF]),
       (false, [0x2B]), (true, [0x00]), (true, [0x00]),
       (true, [0x00]), (true, [0xEF]),
       (false, [0x2C])] ++
      (chunksOf 4096 (showBuffer img)).map (fun c => (true, c)) :=
  ⟨writes_initTrace dc0, writes_init_display dc1, writes_showFrame img dc2⟩

/-- C6 counterexample: the constructor issues the display-inversion
opcode `0x21` on the wire, which is not among the seven opcodes the
claim allows. -/
theorem C6_counterexample :
    0x21 ∈ commandBytes initTrace true ∧
    0x21 ∉ ([0x11, 0x29, 0x36, 0x3A, 0x2A, 0x2B, 0x2C] : List Nat) := by
  decide

/-- C6 amended: every command opcode the driver ever writes on the wire
is one of exactly the eight values `0x11`, `0x21` (display-inversion-on,
issued during construction), `0x29`, `0x36`, `0x3A`, `0x2A`, `0x2B`,
`0x2C`, in every operation including construction/initialization. -/
theorem C6_amended_opcode_set (img : Canvas) (dc0 dc1 dc2 : Bool) :
    commandBytes initTrace dc0 =
      [0x36, 0x3A, 0x21, 0x11, 0x29, 0x11, 0x36, 0x3A, 0x29] ∧
    commandBytes init_display dc1 = [0x11, 0x36, 0x3A, 0x29] ∧
    commandBytes (showFrame img) dc2 = [0x2A, 0x2B, 0x2C] ∧
    (([0x36, 0x3A, 0x21, 0x11, 0x29, 0x11, 0x36, 0x3A, 0x29] ++
      [0x11, 0x36, 0x3A, 0x29] ++ [0x2A, 0x2B, 0x2C] : List Nat).all
      (fun c =>
        ([0x11, 0x21, 0x29, 0x36, 0x3A, 0x2A, 0x2B, 0x2C] : List Nat).contains c)
      = true) := by
  refine ⟨?_, ?_, ?_, by decide⟩
  · unfold commandBytes
    rw [writes_initTrace]
    rfl
  · unfold commandBytes
    rw [writes_init_display]
    rfl
  · unfold commandBytes
    rw [writes_showFrame]
    rw [List.filterMap_append]
    rw [List.filterMap_map]
    have hnone :
        List.filterMap
          ((fun w : Bool × List Nat => if w.1 then none else some w.2) ∘
            (fun c => (true, c)))
          (chunksOf 4096 (showBuffer img)) = [] := by
      induction chunksOf 4096 (showBuffer img) with
      | nil => rfl
      | cons a cs ih =>
        rw [List.filterMap_cons]
        simp only [Function.comp_apply, if_pos]
        exact ih
    rw [hnone]
    rfl

/-- `joinAll` distributes over list append. -/
theorem joinAll_append (l1 l2 : List (List α)) :
    joinAll (l1 ++ l2) = joinAll l1 ++ joinAll l2 := by
  induction l1 with
  | nil => rfl
  | cons a l ih => simp [joinAll, ih]

/-- Concatenating `n` copies of `List.replicate m 0` yields
`List.replicate (n * m) 0`. -/
theorem join_const_replicate (m : Nat) :
    ∀ n : Nat,
      joinAll ((List.range n).map (fun _ => List.replicate m (0 : Nat))) =
        List.replicate (n * m) 0 := by
  intro n
  induction n with
  | zero => simp [joinAll]
  | succ n ih =>
    rw [List.range_succ, List.map_append, joinAll_append, ih]
    show List.replicate (n * m) 0 ++ (List.replicate m 0 ++ []) = _
    rw [List.append_nil, ← List.replicate_add]
    congr 1
    ring

/-- C2: with the canvas filled entirely with black, the pixel-data byte
stream produced by `show()` after rotation and encoding is exactly
`width × height × 2 = 115200` bytes, every byte `0x00` — so every
consecutive byte pair is `0x00 0x00`. -/
theorem C2_black_frame_stream :
    showBuffer blackCanvas = List.replicate (width * height * 2) 0x00 ∧
    width * height * 2 = 115200 := by
  constructor
  · have hpix : ∀ x y : Nat,
        pixelBytes (rotate270 blackCanvas x y) = List.replicate 2 0 := by
      intro x y
      show pixelBytes (0, 0, 0) = List.replicate 2 0
      decide
    unfold showBuffer
    simp only [hpix]
    rw [join_const_replicate 2 width]
    rw [join_const_replicate (width * 2) height]
    have harith : height * (width * 2) = width * height * 2 := by
      norm_num [width, height]
    rw [harith]
  · norm_num [width, height]

/-- Clearing a pin's registration clears exactly that pin. -/
theorem remove_event_detect_self (st : Nat → Option κ) (pin : Nat) :
    remove_event_detect st pin pin = none := by
  simp [remove_event_detect]

/-- Clearing a pin's registration leaves other pins alone. -/
theorem remove_event_detect_ne (st : Nat → Option κ) (pin p : Nat)
    (hp : p ≠ pin) : remove_event_detect st pin p = st p := by
  simp [remove_event_detect, hp]

/-- Rebinding one pin never changes the registration of a different
pin. -/
theorem bindPin_ne (osFail : Nat → Bool)
    (acc : (Nat → Option κ) × List (Nat × AddError)) (pin p : Nat)
    (func : Option κ) (hp : p ≠ pin) :
    (bindPin osFail acc pin func).1 p = acc.1 p := by
  cases func with
  | none => rfl
  | some f =>
    by_cases h2 : osFail pin <;>
      simp [bindPin, add_event_detect, remove_event_detect, hp, h2]

/-- C10: a `None` callback argument leaves its button pin completely
untouched — `set_callbacks` neither clears nor replaces that pin's
existing registration; only pins given a non-`None` callback are
re-bound. -/
theorem C10_none_callback_untouched (κ : Type) (osFail : Nat → Bool)
    (st : Nat → Option κ) (k1 k2 k3 : Option κ) :
    (set_callbacks osFail st none k2 k3).1 KEY1_PIN = st KEY1_PIN ∧
    (set_callbacks osFail st k1 none k3).1 KEY2_PIN = st KEY2_PIN ∧
    (set_callbacks osFail st k1 k2 none).1 KEY3_PIN = st KEY3_PIN := by
  refine ⟨?_, ?_, ?_⟩
  · show (bindPin osFail (bindPin osFail (bindPin osFail (st, [])
        KEY1_PIN none) KEY2_PIN k2) KEY3_PIN k3).1 KEY1_PIN = st KEY1_PIN
    rw [bindPin_ne osFail _ KEY3_PIN KEY1_PIN k3 (by decide)]
    rw [bindPin_ne osFail _ KEY2_PIN KEY1_PIN k2 (by decide)]
    rfl
  · show (bindPin osFail (bindPin osFail (bindPin osFail (st, [])
        KEY1_PIN k1) KEY2_PIN none) KEY3_PIN k3).1 KEY2_PIN = st KEY2_PIN
    rw [bindPin_ne osFail _ KEY3_PIN KEY2_PIN k3 (by decide)]
    show (bindPin osFail (st, []) KEY1_PIN k1).1 KEY2_PIN = st KEY2_PIN
    rw [bindPin_ne osFail _ KEY1_PIN KEY2_PIN k1 (by decide)]
  · show (bindPin osFail (bindPin osFail (bindPin osFail (st, [])
        KEY1_PIN k1) KEY2_PIN k2) KEY3_PIN none).1 KEY3_PIN = st KEY3_PIN
    show (bindPin osFail (bindPin osFail (st, [])
        KEY1_PIN k1) KEY2_PIN k2).1 KEY3_PIN = st KEY3_PIN
    rw [bindPin_ne osFail _ KEY2_PIN KEY3_PIN k2 (by decide)]
    rw [bindPin_ne osFail _ KEY1_PIN KEY3_PIN k1 (by decide)]

/-- A `bindPin` step never adds an "already registered" warning: the
registration is always cleared before `add_event_detect` runs. -/
theorem bindPin_no_conflict (osFail : Nat → Bool)
    (acc : (Nat → Option κ) × List (Nat × AddError)) (pin : Nat)
    (func : Option κ)
    (hacc : acc.2.all (fun e => e.2 != AddError.alreadyRegistered) = true) :
    (bindPin osFail acc pin func).2.all
      (fun e => e.2 != AddError.alreadyRegistered) = true := by
  cases func with
  | none => exact hacc
  | some f =>
    by_cases h2 : osFail pin <;>
      simp [bindPin, add_event_detect, remove_event_detect, h2, hacc]

/-- With a healthy GPIO layer, clearing and re-adding a pin's callback
installs exactly the new callback on that pin. -/
theorem rebind_pin_replaces (st : Nat → Option κ) (pin : Nat) (f g : κ) :
    (bindPin (fun _ => false)
      ((bindPin (fun _ => false) (st, ([] : List (Nat × AddError)))
        pin (some f)).1, [])
      pin (some g)).1 pin = some g := by
  simp [bindPin, add_event_detect, remove_event_detect]

/-- C8: rebinding a button callback twice on the same pin never fails
with "already registered" — for any arguments, the warnings of a
`set_callbacks` call never contain that error, because the prior
registration is cleared before re-registering.  With a healthy GPIO
layer the second registration fully replaces the first on each of the
three button pins and no warning is printed; an OS-level registration
failure after clearing is reported as a warning, not raised —
`set_callbacks` still returns normally. -/
theorem C8_rebind_replaces (κ : Type) (osFail : Nat → Bool)
    (st : Nat → Option κ) (f g : κ) (k1 k2 k3 : Option κ) :
    ((set_callbacks osFail st k1 k2 k3).2.all
      (fun e => e.2 != AddError.alreadyRegistered) = true) ∧
    ((set_callbacks (fun _ => false)
        (set_callbacks (fun _ => false) st (some f) none none).1
        (some g) none none).1 KEY1_PIN = some g) ∧
    ((set_callbacks (fun _ => false)
        (set_callbacks (fun _ => false) st none (some f) none).1
        none (some g) none).1 KEY2_PIN = some g) ∧
    ((set_callbacks (fun _ => false)
        (set_callbacks (fun _ => false) st none none (some f)).1
        none none (some g)).1 KEY3_PIN = some g) ∧
    ((set_callbacks (fun _ => false)
        (set_callbacks (fun _ => false) st (some f) none none).1
        (some g) none none).2 = []) ∧
    ((set_callbacks (fun _ => true)
        (set_callbacks (fun _ => true) st (some f) none none).1
        (some g) none none).2 = [(KEY1_PIN, AddError.osFailure)]) := by
  refine ⟨?_, ?_, ?_, ?_, ?_, ?_⟩
  · show (bindPin osFail (bindPin osFail (bindPin osFail (st, [])
        KEY1_PIN k1) KEY2_PIN k2) KEY3_PIN k3).2.all
      (fun e => e.2 != AddError.alreadyRegistered) = true
    apply bindPin_no_conflict
    apply bindPin_no_conflict
    apply bindPin_no_conflict
    rfl
  · exact rebind_pin_replaces st KEY1_PIN f g
  · exact rebind_pin_replaces st KEY2_PIN f g
  · exact rebind_pin_replaces st KEY3_PIN f g
  · show ((bindPin (fun _ => false)
        ((bindPin (fun _ => false) (st, []) KEY1_PIN (some f)).1, [])
        KEY1_PIN (some g)).2 = [])
    simp [bindPin, add_event_detect, remove_event_detect]
  · show ((bindPin (fun _ => true)
        ((bindPin (fun _ => true) (st, []) KEY1_PIN (some f)).1, [])
        KEY1_PIN (some g)).2 = [(KEY1_PIN, AddError.osFailure)])
    simp [bindPin, add_event_detect, remove_event_detect]
